import Mathlib

/-!
Verification of the `em` package (pschlump/emailbuilder, src/em.go): a fluent
builder for composing and sending multipart email over SMTP.

Modelling conventions, in the order the source introduces them:

* Go machine integers are modelled as `Int` (no arithmetic here can overflow a
  64-bit int for realistic string lengths); Go integer division truncates
  toward zero and panics on a zero divisor, so it is modelled by `Int.tdiv`
  guarded by an explicit zero test.
* Go strings are byte strings.  Where byte-level indexing matters
  (`NewEmFile`'s `fn[0:1]` / `fn[0:2]`) paths are modelled as `List Nat`
  (bytes); elsewhere (header values, bodies) `String` is used.
* A Go runtime panic is modelled by an operation returning `none`.
* Fallible externals (file system reads, the JSON unmarshaller, the SMTP
  transport) are parameters of the operations that consume them.
* The external `mailbuilder` collaborator (Message / MultiPart / SimplePart,
  with AddPart appending a child pointer) is modelled structurally: the EM
  struct's `Alt` and `Mixed` multipart pointers share structure (Alt is a
  child of Mixed), so the state keeps `altChildren` (contents of Alt) and
  `mixedChildren` (contents of Mixed, where the pointer to Alt is the
  distinguished element `MixedChild.altRef`); `mixedTree` resolves the
  reference to recover the body tree a reader of the Go heap would see.
-/

namespace Em

/-- Credentials record, `EmailUser` in src/em.go lines 47-52. -/
structure EmailUser where
  Username : String
  Password : String
  EmailServer : String
  Port : Int
deriving Repr, DecidableEq

/-- Zero value of the Go `EmailUser` struct (all fields at their zero values),
the state a named return variable starts in. -/
def zeroEmailUser : EmailUser :=
  { Username := "", Password := "", EmailServer := "", Port := 0 }

/-- Error taxonomy of the package, one constructor per numeric error code the
source formats with `fmt.Sprintf` (codes 12023, 12002, 12022, 12021).  The
formatted text is abstracted to the code plus the dynamic data it embeds. -/
inductive EmErr where
  /-- Error(12023): credentials file missing or unreadable (line 80). -/
  | fileRead (fn : List Nat) (underlying : String)
  /-- Error(12002): credentials file is not valid JSON (line 85). -/
  | invalidFormat (underlying : String)
  /-- Error(12022): send attempted with no body or attachments (line 233). -/
  | noBody
  /-- Error(12021): SMTP transport failure (line 246). -/
  | smtpSend (underlying : String)
deriving Repr, DecidableEq

/-- Numeric code of each error, as printed by the source. -/
def errCode : EmErr → Nat
  | .fileRead _ _ => 12023
  | .invalidFormat _ => 12002
  | .noBody => 12022
  | .smtpSend _ => 12021

/-- A node of the MIME body tree built through the external mailbuilder
library: a SimplePart (ordered headers plus content) or a MultiPart (a
content-type and an ordered list of children). -/
inductive Part where
  | simple (headers : List (String × String)) (content : String)
  | multi (contentType : String) (children : List Part)

/-- Membership of the EM struct's `Mixed` container: either the pointer to
the `Alt` container installed by `doAltSetup` (line 167), or a plain part
appended by `Attach` (line 225). -/
inductive MixedChild where
  | altRef
  | leaf (p : Part)

/-- Address as produced by `mailbuilder.NewAddress(addr, name)`. -/
structure Address where
  email : String
  name : String
deriving Repr, DecidableEq

/-- State of the external `mailbuilder.Message`: From pointer (nil at
creation), recipient lists appended to in call order, subject, and the body
part installed by SetBody.  Modelled from the collaborator's interface as the
spec describes it (section 3 data model). -/
structure MessageState where
  fromAddr : Option Address
  toA : List Address
  cc : List Address
  bcc : List Address
  subject : String
  body : Option Part

/-- Fresh message, `mailbuilder.NewMessage()`. -/
def newMessage : MessageState :=
  { fromAddr := none, toA := [], cc := [], bcc := [], subject := "", body := none }

/-- Value built by `smtp.PlainAuth(identity, username, password, host)`. -/
structure PlainAuth where
  identity : String
  username : String
  password : String
  host : String

/-- The EM struct, src/em.go lines 54-66.  `emailCfgFn` is kept as the byte
string Go stores.  `altChildren` and `mixedChildren` model the contents of
the `Alt` and `Mixed` multiparts (see the file header for the aliasing
convention); with `altSetup = false` both pointers are nil and the lists are
meaningless placeholders, exactly as in the source. -/
structure EMState where
  emailCfgFn : List Nat
  emailConfig : EmailUser
  smtpAuth : PlainAuth
  message : MessageState
  altChildren : List Part
  mixedChildren : List MixedChild
  emErr : Option EmErr
  altSetup : Bool
  lineMaxLength : Int
  printErrors : Bool

/- ------------------------------------------------------------------ -/
/- Base64 and attachment wrapping                                      -/
/- ------------------------------------------------------------------ -/

/-- The standard base64 alphabet used by Go's `base64.StdEncoding`. -/
def b64Alphabet : List Char :=
  ("ABCDEFGHIJKLMNOPQRSTUVWXYZabcdefghijklmnopqrstuvwxyz0123456789+/").toList

/-- Character at a 6-bit index of the standard alphabet. -/
def b64Char (i : Nat) : Char := b64Alphabet.getD i 'A'

/-- Model of `base64.StdEncoding.EncodeToString` over a byte list: 3-byte
groups become 4 alphabet characters; a trailing group of 1 or 2 bytes is
padded with `=`. -/
def b64Encode : List Nat → List Char
  | [] => []
  | [b0] =>
      [b64Char (b0 / 4 % 64), b64Char (b0 % 4 * 16), '=', '=']
  | [b0, b1] =>
      [b64Char (b0 / 4 % 64), b64Char (b0 % 4 * 16 + b1 / 16 % 16),
       b64Char (b1 % 16 * 4), '=']
  | b0 :: b1 :: b2 :: rest =>
      b64Char (b0 / 4 % 64) :: b64Char (b0 % 4 * 16 + b1 / 16 % 16) ::
      b64Char (b1 % 16 * 4 + b2 / 64 % 4) :: b64Char (b2 % 64) ::
      b64Encode rest

/-- Go slice expression `s[lo:hi]` on a character list (indices are Go ints,
in-range at every use site reached by the source's loop). -/
def goSliceTo (l : List Char) (lo hi : Int) : List Char :=
  (l.drop lo.toNat).take (hi - lo).toNat

/-- Go slice expression `s[lo:]`. -/
def goSliceFrom (l : List Char) (lo : Int) : List Char :=
  l.drop lo.toNat

/-- Line-wrapping loop of `Attach`, src/em.go lines 216-222:
`nbrLines := len(encoded) / this.lineMaxLength` followed by a loop writing
`encoded[i*lml:(i+1)*lml] + "\n"` for each `i < nbrLines`, then the tail
`encoded[nbrLines*lml:]`.  Go integer division truncates toward zero
(`Int.tdiv`) and panics when the divisor is zero; the panic is `none`. -/
def wrapEncoded (encoded : List Char) (lml : Int) : Option (List Char) :=
  if lml = 0 then none
  else
    let n : Int := Int.tdiv (Int.ofNat encoded.length) lml
    some ((List.range n.toNat).foldl
        (fun acc i =>
          acc ++ goSliceTo encoded (Int.ofNat i * lml) ((Int.ofNat i + 1) * lml) ++ ['\n'])
        []
      ++ goSliceFrom encoded (n * lml))

/- ------------------------------------------------------------------ -/
/- Path handling and content types                                     -/
/- ------------------------------------------------------------------ -/

/-- Helper for `filepathExt`: scans the reversed character list of a path;
`acc` holds the characters already passed, in original order.  Returns the
suffix starting at the last dot of the last path element, or `[]`. -/
def extRevScan : List Char → List Char → List Char
  | [], _ => []
  | c :: rest, acc =>
      if c = '/' then []
      else if c = '.' then c :: acc
      else extRevScan rest (c :: acc)

/-- Model of Go `filepath.Ext` (unix separators): the suffix beginning at the
final dot in the final slash-separated element of the path, empty if none. -/
def filepathExt (p : String) : String :=
  String.mk (extRevScan p.toList.reverse [])

/-- Model of Go `filepath.Base` (unix separators): trailing slashes removed,
then the last element; "." for the empty path, "/" if the path is all
slashes. -/
def filepathBase (p : String) : String :=
  if p = "" then "."
  else
    let stripped := p.toList.reverse.dropWhile (fun c => c = '/')
    if stripped = [] then "/"
    else String.mk ((stripped.takeWhile (fun c => c ≠ '/')).reverse)

/-- Built-in extension table of Go's `mime` package (mime/type.go,
builtinTypesLower).  `mime.TypeByExtension` consults this table (plus any
system mime.types files) and returns the empty string for an extension with
no entry — it has no application/octet-stream fallback. -/
def mimeTable : List (String × String) :=
  [(".avif", "image/avif"),
   (".css", "text/css; charset=utf-8"),
   (".gif", "image/gif"),
   (".htm", "text/html; charset=utf-8"),
   (".html", "text/html; charset=utf-8"),
   (".jpeg", "image/jpeg"),
   (".jpg", "image/jpeg"),
   (".js", "text/javascript; charset=utf-8"),
   (".json", "application/json"),
   (".mjs", "text/javascript; charset=utf-8"),
   (".pdf", "application/pdf"),
   (".png", "image/png"),
   (".svg", "image/svg+xml"),
   (".wasm", "application/wasm"),
   (".webp", "image/webp"),
   (".xml", "text/xml; charset=utf-8")]

/-- Model of Go `mime.TypeByExtension`: table lookup, empty string when the
extension is unknown. -/
def typeByExtension (ext : String) : String :=
  (mimeTable.lookup ext).getD ""

/-- Go `%q` formatting of a file name as used at src/em.go line 211
(escaping of embedded quotes and non-printables is not modelled; attachment
base names in this development contain neither). -/
def goQuote (s : String) : String := "\"" ++ s ++ "\""

/-- The three headers `Attach` adds to the attachment part, in AddHeader
order (src/em.go lines 209-211). -/
def attachHeaders (fn : String) : List (String × String) :=
  [("Content-Type", typeByExtension (filepathExt fn)),
   ("Content-Transfer-Encoding", "base64"),
   ("Content-Disposition", "attachment; filename=" ++ goQuote (filepathBase fn))]

/- ------------------------------------------------------------------ -/
/- Builder operations                                                  -/
/- ------------------------------------------------------------------ -/

/-- Method `initEM`, src/em.go lines 69-75: installs the PlainAuth value and
a fresh message. -/
def initEM (s : EMState) : EMState :=
  { s with
    smtpAuth :=
      { identity := ""
        username := s.emailConfig.Username
        password := s.emailConfig.Password
        host := s.emailConfig.EmailServer }
    message := newMessage }

/-- Constructor `NewEm`, src/em.go lines 112-117: builds the EM struct with
`altSetup = false`, `lineMaxLength = 500`, `printErrors = true`, stores the
given credentials and runs `initEM`.  Unset struct fields take Go zero
values (nil pointers for Alt/Mixed are the empty placeholder lists). -/
def NewEm (ec : EmailUser) : EMState :=
  initEM
    { emailCfgFn := []
      emailConfig := ec
      smtpAuth := { identity := "", username := "", password := "", host := "" }
      message := newMessage
      altChildren := []
      mixedChildren := []
      emErr := none
      altSetup := false
      lineMaxLength := 500
      printErrors := true }

/-- Method `SetMaxLineLength`, src/em.go lines 121-123.  The Go method has no
return value (it does not return the receiver). -/
def SetMaxLineLength (s : EMState) (n : Int) : EMState :=
  { s with lineMaxLength := n }

/-- Method `SetPrintErrors`, src/em.go lines 128-130.  The Go method has no
return value (it does not return the receiver). -/
def SetPrintErrors (s : EMState) (b : Bool) : EMState :=
  { s with printErrors := b }

/-- Method `To`, src/em.go lines 133-136: appends an address and returns the
receiver. -/
def To (s : EMState) (addr name : String) : EMState :=
  { s with message := { s.message with toA := s.message.toA ++ [⟨addr, name⟩] } }

/-- Method `Cc`, src/em.go lines 139-142. -/
def Cc (s : EMState) (addr name : String) : EMState :=
  { s with message := { s.message with cc := s.message.cc ++ [⟨addr, name⟩] } }

/-- Method `Bcc`, src/em.go lines 145-148. -/
def Bcc (s : EMState) (addr name : String) : EMState :=
  { s with message := { s.message with bcc := s.message.bcc ++ [⟨addr, name⟩] } }

/-- Method `From`, src/em.go lines 151-154 (named `FromAddr` here because
`from` is reserved in Lean): overwrites the From pointer. -/
def FromAddr (s : EMState) (addr name : String) : EMState :=
  { s with message := { s.message with fromAddr := some ⟨addr, name⟩ } }

/-- Method `Subject`, src/em.go lines 157-160. -/
def Subject (s : EMState) (subj : String) : EMState :=
  { s with message := { s.message with subject := subj } }

/-- Method `doAltSetup`, src/em.go lines 162-169: on the first call only
(guarded by `altSetup`), creates a fresh `multipart/alternative` container
and a fresh `multipart/mixed` container and adds the former as the first
child of the latter. -/
def doAltSetup (s : EMState) : EMState :=
  if s.altSetup then s
  else
    { s with
      altSetup := true
      altChildren := []
      mixedChildren := [MixedChild.altRef] }

/-- Headers of the part `TextBody` creates (src/em.go line 179). -/
def textHeaders : List (String × String) :=
  [("Content-Type", "text/plain; charset=us-ascii")]

/-- Headers of the part `HtmlBody` creates (src/em.go line 193). -/
def htmlHeaders : List (String × String) :=
  [("Content-Type", "text/html; charset=us-ascii")]

/-- Method `TextBody`, src/em.go lines 172-183: ensures the containers exist,
then appends a text/plain leaf to the Alt container. -/
def TextBody (s : EMState) (t : String) : EMState :=
  let s := doAltSetup s
  { s with altChildren := s.altChildren ++ [Part.simple textHeaders t] }

/-- Method `HtmlBody`, src/em.go lines 186-197. -/
def HtmlBody (s : EMState) (t : String) : EMState :=
  let s := doAltSetup s
  { s with altChildren := s.altChildren ++ [Part.simple htmlHeaders t] }

/-- Method `Attach`, src/em.go lines 201-227: ensures the containers exist,
builds the attachment headers from the path, reads the file ignoring the
read error (`content, _ := ioutil.ReadFile(fn)`, so an unreadable file
yields the empty byte string), base64-encodes, wraps at `lineMaxLength`
columns, and appends the part directly to the Mixed container.  `fileContent`
is the file system's answer: `none` means ReadFile failed.  The result is
`none` exactly when the wrapping loop panics (zero `lineMaxLength`). -/
def Attach (s : EMState) (fn : String) (fileContent : Option (List Nat)) :
    Option EMState :=
  let s := doAltSetup s
  let content := fileContent.getD []
  let encoded := b64Encode content
  match wrapEncoded encoded s.lineMaxLength with
  | none => none
  | some wrapped =>
      some { s with
        mixedChildren := s.mixedChildren ++
          [MixedChild.leaf (Part.simple (attachHeaders fn) (String.mk wrapped))] }

/-- Contents of the Alt container as a part. -/
def altPart (s : EMState) : Part :=
  Part.multi "multipart/alternative" s.altChildren

/-- Resolves a child of the Mixed container against the current Alt
contents (pointer dereference). -/
def resolveChild (alt : Part) : MixedChild → Part
  | .altRef => alt
  | .leaf p => p

/-- The body tree rooted at the Mixed container, as a reader of the Go heap
would see it after dereferencing the Alt pointer. -/
def mixedTree (s : EMState) : Part :=
  Part.multi "multipart/mixed" (s.mixedChildren.map (resolveChild (altPart s)))

/- ------------------------------------------------------------------ -/
/- Sending                                                             -/
/- ------------------------------------------------------------------ -/

/-- Flattened recipient list handed to the transport
(`mailbuilder.Message.Recipients()`: To, then Cc, then Bcc). -/
def recipientsOf (m : MessageState) : List String :=
  (m.toA ++ m.cc ++ m.bcc).map Address.email

/-- What `SendIt` hands to `smtp.SendMail` (src/em.go lines 239-243):
the `host:port` address, the From email, the flattened recipients, and the
message body tree that was just installed by SetBody. -/
structure SendReq where
  addr : String
  fromEmail : String
  recipients : List String
  body : Part

/-- Observable outcome of one `SendIt` call: the guarded early return with
Error(12022); the nil-pointer panic of `this.Message.From.Email` when no
From address was set; or a transport invocation together with the error
`SendIt` returns for it. -/
inductive SendOutcome where
  | noBodyErr (e : EmErr)
  | nilFromPanic
  | sent (req : SendReq) (err : Option EmErr)

/-- Method `SendIt`, src/em.go lines 230-257.  `transportErr` is the SMTP
transport's answer (`none` = delivered).  Faithful to the source: on the
no-body early return nothing else happens; otherwise the body is set to the
Mixed container, the transport is invoked, a transport failure is wrapped as
Error(12021) and stored in `Err`, and the message — but not `altSetup`,
`Alt` or `Mixed` — is replaced by a fresh one (line 254). -/
def SendIt (transportErr : Option String) (s : EMState) :
    EMState × SendOutcome :=
  if s.altSetup then
    let s1 := { s with message := { s.message with body := some (mixedTree s) } }
    match s1.message.fromAddr with
    | none => (s1, SendOutcome.nilFromPanic)
    | some f =>
        let req : SendReq :=
          { addr := s1.emailConfig.EmailServer ++ ":" ++ toString s1.emailConfig.Port
            fromEmail := f.email
            recipients := recipientsOf s1.message
            body := mixedTree s1 }
        match transportErr with
        | some te =>
            ({ s1 with
                emErr := some (EmErr.smtpSend te)
                message := newMessage },
             SendOutcome.sent req (some (EmErr.smtpSend te)))
        | none =>
            ({ s1 with message := newMessage }, SendOutcome.sent req none)
  else
    (s, SendOutcome.noBodyErr EmErr.noBody)

/- ------------------------------------------------------------------ -/
/- Configuration loading                                               -/
/- ------------------------------------------------------------------ -/

/-- Method `readEmailConfig`, src/em.go lines 77-90.  `readFile` is the file
system (error = missing/unreadable); `unmarshal` is the external JSON
decoder, returning the (possibly partially populated) value it wrote through
the pointer together with its error, if any.

Faithful to the source's variable scoping: the function has named returns
`(rv EmailUser, err error)`; in the successful-read branch the statement
`err := json.Unmarshal(data, &rv)` declares a NEW `err` inside the else
block, shadowing the named return, so the Error(12002) value built on
line 86 is assigned to the shadowed variable and dropped — the function
returns `err = nil` together with whatever `Unmarshal` left in `rv`. -/
def readEmailConfig (readFile : List Nat → Except String String)
    (unmarshal : String → EmailUser × Option String) (fn : List Nat) :
    EmailUser × Option EmErr :=
  match readFile fn with
  | Except.error e => (zeroEmailUser, some (EmErr.fileRead fn e))
  | Except.ok data => ((unmarshal data).1, none)

/-- Shared tail of `NewEmFile` (src/em.go lines 102-109): store the loaded
credentials, record the load error if any, and run `initEM`. -/
def finishNewEmFile (base : EMState) (r : EmailUser × Option EmErr) : EMState :=
  initEM { base with emailConfig := r.1, emErr := r.2 }

/-- Constructor `NewEmFile`, src/em.go lines 92-110.  The path is a Go byte
string.  The source evaluates `fn[0:1]` and, when that is not "/", `fn[0:2]`
with no length check; a Go string slice `fn[0:k]` panics when `k > len(fn)`,
so the empty path and every 1-byte path other than "/" panic (result
`none`) — the constructor then returns neither a value nor an error.
Byte 47 is "/", byte 126 is "~", byte 46 is ".". -/
def NewEmFile (readFile : List Nat → Except String String)
    (unmarshal : String → EmailUser × Option String)
    (homeDir : List Nat) (fn : List Nat) (pe : Bool) : Option EMState :=
  let base : EMState :=
    { emailCfgFn := fn
      emailConfig := zeroEmailUser
      smtpAuth := { identity := "", username := "", password := "", host := "" }
      message := newMessage
      altChildren := []
      mixedChildren := []
      emErr := none
      altSetup := false
      lineMaxLength := 500
      printErrors := pe }
  if fn.length < 1 then none
  else if fn.take 1 = [47] then
    some (finishNewEmFile base (readEmailConfig readFile unmarshal fn))
  else if fn.length < 2 then none
  else if fn.take 2 = [126, 47] then
    some (finishNewEmFile base
      (readEmailConfig readFile unmarshal (homeDir ++ [47] ++ fn.drop 2)))
  else
    some (finishNewEmFile base
      (readEmailConfig readFile unmarshal ([46, 47] ++ fn)))

/- ------------------------------------------------------------------ -/
/- Operation sequences                                                 -/
/- ------------------------------------------------------------------ -/

/-- The builder operations that do not touch the body tree. -/
inductive NonBodyOp where
  | toOp (addr name : String)
  | ccOp (addr name : String)
  | bccOp (addr name : String)
  | fromOp (addr name : String)
  | subjOp (subj : String)
  | maxLenOp (n : Int)
  | printErrOp (b : Bool)
deriving Repr, DecidableEq

/-- Interpretation of a non-body operation. -/
def applyNonBodyOp (s : EMState) : NonBodyOp → EMState
  | .toOp a n => To s a n
  | .ccOp a n => Cc s a n
  | .bccOp a n => Bcc s a n
  | .fromOp a n => FromAddr s a n
  | .subjOp t => Subject s t
  | .maxLenOp n => SetMaxLineLength s n
  | .printErrOp b => SetPrintErrors s b

/-- Runs a sequence of non-body operations. -/
def runNonBody (s : EMState) (ops : List NonBodyOp) : EMState :=
  ops.foldl applyNonBodyOp s

/-- The three body-mutating operations.  An attach operation carries the
file system's answer for its path (`none` = unreadable). -/
inductive BodyOp where
  | text (t : String)
  | html (t : String)
  | attach (fn : String) (fileContent : Option (List Nat))
deriving Repr, DecidableEq

/-- Interpretation of a body operation (`none` = Go panic inside Attach). -/
def applyBodyOp (s : EMState) : BodyOp → Option EMState
  | .text t => some (TextBody s t)
  | .html t => some (HtmlBody s t)
  | .attach fn fc => Attach s fn fc

/-- Runs a sequence of body operations, propagating a panic. -/
def runBodyOps (s : EMState) : List BodyOp → Option EMState
  | [] => some s
  | op :: rest =>
      match applyBodyOp s op with
      | none => none
      | some s' => runBodyOps s' rest

/-- The text/HTML leaves a body-operation sequence contributes to the Alt
container, in call order. -/
def altLeaves : List BodyOp → List Part
  | [] => []
  | BodyOp.text t :: rest => Part.simple textHeaders t :: altLeaves rest
  | BodyOp.html t :: rest => Part.simple htmlHeaders t :: altLeaves rest
  | BodyOp.attach _ _ :: rest => altLeaves rest

/-- The attachment leaves a body-operation sequence contributes directly to
the Mixed container, in call order, when the wrap width is `lml`. -/
def attachLeaves (lml : Int) : List BodyOp → List Part
  | [] => []
  | BodyOp.attach fn fc :: rest =>
      Part.simple (attachHeaders fn)
          (String.mk ((wrapEncoded (b64Encode (fc.getD [])) lml).getD []))
        :: attachLeaves lml rest
  | _ :: rest => attachLeaves lml rest

/-- The mutating operations of the builder's public contract (the fluent
API), one constructor per Go method. -/
inductive Method where
  | setMaxLineLength
  | setPrintErrors
  | toM
  | ccM
  | bccM
  | fromM
  | subjectM
  | textBody
  | htmlBody
  | attachM
deriving Repr, DecidableEq

/-- Transcribed from the Go method signatures in src/em.go: true iff the
method's declared return type is `*EM`, i.e. the method ends in
`return this` and can be chained.  `SetMaxLineLength` (line 121) and
`SetPrintErrors` (line 128) are declared with no return value; `To` (133),
`Cc` (139), `Bcc` (145), `From` (151), `Subject` (157), `TextBody` (172),
`HtmlBody` (186) and `Attach` (201) all return `*EM`. -/
def methodReturnsBuilder : Method → Bool
  | .setMaxLineLength => false
  | .setPrintErrors => false
  | .toM => true
  | .ccM => true
  | .bccM => true
  | .fromM => true
  | .subjectM => true
  | .textBody => true
  | .htmlBody => true
  | .attachM => true

/-- Credentials used by the concrete evaluations below. -/
def testCfg : EmailUser :=
  { Username := "user", Password := "pw", EmailServer := "smtp.example.com", Port := 587 }

/- ------------------------------------------------------------------ -/
/- Helper lemmas                                                       -/
/- ------------------------------------------------------------------ -/

theorem doAltSetup_lineMaxLength (s : EMState) :
    (doAltSetup s).lineMaxLength = s.lineMaxLength := by
  unfold doAltSetup; split <;> rfl

theorem doAltSetup_emErr (s : EMState) :
    (doAltSetup s).emErr = s.emErr := by
  unfold doAltSetup; split <;> rfl

theorem doAltSetup_altSetup (s : EMState) :
    (doAltSetup s).altSetup = true := by
  unfold doAltSetup
  split
  · assumption
  · rfl

theorem doAltSetup_of_setup (s : EMState) (h : s.altSetup = true) :
    doAltSetup s = s := by
  unfold doAltSetup; rw [if_pos h]

theorem doAltSetup_of_not_setup (s : EMState) (h : s.altSetup = false) :
    doAltSetup s
      = { s with altSetup := true, altChildren := [], mixedChildren := [MixedChild.altRef] } := by
  unfold doAltSetup
  rw [if_neg]
  rw [h]
  simp

theorem wrapEncoded_isSome (e : List Char) (lml : Int) (h : lml ≠ 0) :
    ∃ w, wrapEncoded e lml = some w := by
  unfold wrapEncoded
  rw [if_neg h]
  exact ⟨_, rfl⟩

theorem wrapEncoded_nil (lml : Int) (h : lml ≠ 0) : wrapEncoded [] lml = some [] := by
  unfold wrapEncoded
  rw [if_neg h]
  simp [goSliceFrom, Int.zero_tdiv]

/-- Unfolding equation for `Attach` when the wrapping loop does not panic. -/
theorem Attach_eq (s : EMState) (fn : String) (fc : Option (List Nat)) (w : List Char)
    (hw : wrapEncoded (b64Encode (fc.getD [])) s.lineMaxLength = some w) :
    Attach s fn fc
      = some { doAltSetup s with
          mixedChildren := (doAltSetup s).mixedChildren ++
            [MixedChild.leaf (Part.simple (attachHeaders fn) (String.mk w))] } := by
  simp only [Attach, doAltSetup_lineMaxLength, hw]

/-- Unfolding equation for `Attach` when the wrapping loop panics. -/
theorem Attach_none (s : EMState) (fn : String) (fc : Option (List Nat))
    (hw : wrapEncoded (b64Encode (fc.getD [])) s.lineMaxLength = none) :
    Attach s fn fc = none := by
  simp only [Attach, doAltSetup_lineMaxLength, hw]

theorem runNonBody_altSetup (ops : List NonBodyOp) :
    ∀ s : EMState, (runNonBody s ops).altSetup = s.altSetup := by
  induction ops with
  | nil => intro s; rfl
  | cons op rest ih =>
      intro s
      have hstep : runNonBody s (op :: rest) = runNonBody (applyNonBodyOp s op) rest := rfl
      rw [hstep, ih]
      cases op <;> rfl
/- ------------------------------------------------------------------ -/
/- Claims                                                              -/
/- ------------------------------------------------------------------ -/

/-- C1 (code bug).  The claim says `readEmailConfig` returns an error for
every malformed or missing credentials file and never a partially-populated
value.  The missing-file branch does return Error(12023) (first conjunct).
But in the malformed-JSON branch the statement
`err := json.Unmarshal(data, &rv)` (src/em.go line 83) declares a new `err`
shadowing the named return, so the Error(12002) built on line 86 is dropped:
the function returns a nil error together with whatever the unmarshaller
partially wrote into `rv` (second conjunct, evaluated with an unmarshaller
that decodes the Username field and then fails, exactly what
`json.Unmarshal` does on input such as a JSON object whose Port field holds
a string). -/
theorem C1_shadowed_unmarshal_error :
    readEmailConfig (fun _ => Except.error "no such file")
        (fun _ => (zeroEmailUser, none)) [47, 99, 102, 103]
      = (zeroEmailUser, some (EmErr.fileRead [47, 99, 102, 103] "no such file"))
    ∧ readEmailConfig (fun _ => Except.ok "Username u, Port oops")
        (fun _ => ({ Username := "u", Password := "", EmailServer := "", Port := 0 },
                   some "json: cannot unmarshal string into Port"))
        [47, 99, 102, 103]
      = ({ Username := "u", Password := "", EmailServer := "", Port := 0 }, none) :=
  ⟨rfl, rfl⟩

/-- C2 (code bug).  The claim says a body-mutating call after a successful
send starts from an empty body tree.  Evaluating the exact scenario of the
claim: the first send transmits a body holding only "a" (first conjunct);
`SendIt` then replaces `Message` but resets neither `altSetup` nor the
`Alt`/`Mixed` containers (src/em.go line 254), so `TextBody "b"` appends to
the retained alternative container and the second transmitted body holds
"a" followed by "b", not only "b" (second conjunct). -/
theorem C2_second_send_retains_first_body :
    (SendIt none (TextBody (FromAddr (NewEm testCfg) "a@x.com" "A") "a")).2
      = SendOutcome.sent
          { addr := "smtp.example.com:587"
            fromEmail := "a@x.com"
            recipients := []
            body := Part.multi "multipart/mixed"
              [Part.multi "multipart/alternative" [Part.simple textHeaders "a"]] }
          none
    ∧ (SendIt none (FromAddr
          (TextBody (SendIt none (TextBody (FromAddr (NewEm testCfg) "a@x.com" "A") "a")).1 "b")
          "a@x.com" "A")).2
      = SendOutcome.sent
          { addr := "smtp.example.com:587"
            fromEmail := "a@x.com"
            recipients := []
            body := Part.multi "multipart/mixed"
              [Part.multi "multipart/alternative"
                [Part.simple textHeaders "a", Part.simple textHeaders "b"]] }
          none :=
  ⟨rfl, rfl⟩

/-- C3 (confirmed).  On a builder on which no text body, HTML body or
attachment was ever added — i.e. after any sequence of the non-body
operations only — `altSetup` is still false, so `SendIt` returns the
Error(12022) outcome with the state untouched, whatever the transport would
have answered: the transport is never invoked (the outcome carries no
`SendReq`).  The no-body error's code is 12022. -/
theorem C3_send_without_body_fails (ec : EmailUser) (ops : List NonBodyOp)
    (transportErr : Option String) :
    SendIt transportErr (runNonBody (NewEm ec) ops)
        = (runNonBody (NewEm ec) ops, SendOutcome.noBodyErr EmErr.noBody)
    ∧ errCode EmErr.noBody = 12022 := by
  refine ⟨?_, rfl⟩
  have h : (runNonBody (NewEm ec) ops).altSetup = false := by
    rw [runNonBody_altSetup]; rfl
  unfold SendIt
  rw [if_neg]
  rw [h]
  simp

/-- C9 counterexample.  The claim says every mutating operation of the
builder — including `SetMaxLineLength` and `SetPrintErrors` — returns the
builder for chaining.  `SetMaxLineLength` (src/em.go line 121) is declared
`func (this *EM) SetMaxLineLength(n int)` with no return value at all, so
the claim fails at this concrete operation. -/
theorem C9_counterexample :
    methodReturnsBuilder Method.setMaxLineLength = false := rfl

/-- C9 (corrected).  Every mutating operation of the builder except
`SetMaxLineLength` and `SetPrintErrors` is declared to return the receiver
(`*EM`) so those calls can be chained; the two setters return nothing. -/
theorem C9_chainable_methods (m : Method)
    (h1 : m ≠ Method.setMaxLineLength) (h2 : m ≠ Method.setPrintErrors) :
    methodReturnsBuilder m = true := by
  cases m <;> simp_all [methodReturnsBuilder]

/-- Witness for C9: the `To` method is chainable. -/
theorem C9_witness :
    (Method.toM ≠ Method.setMaxLineLength ∧ Method.toM ≠ Method.setPrintErrors)
    ∧ methodReturnsBuilder Method.toM = true :=
  ⟨⟨by decide, by decide⟩, C9_chainable_methods Method.toM (by decide) (by decide)⟩

/-- C10 (confirmed).  `NewEmFile` evaluates the byte slices `fn[0:1]` and —
when the first byte is not "/" — `fn[0:2]` with no length check
(src/em.go lines 95-97); a Go slice `fn[0:k]` panics when `k` exceeds the
string's byte length.  Hence the empty path panics, and every one-byte path
other than "/" (byte 47) panics: the constructor returns neither an EM
value nor an error (panic is modelled by `none`). -/
theorem C10_newEmFile_short_path_panics
    (readFile : List Nat → Except String String)
    (unmarshal : String → EmailUser × Option String)
    (homeDir : List Nat) (pe pe2 : Bool) (b : Nat) (hb : b ≠ 47) :
    NewEmFile readFile unmarshal homeDir [] pe = none
    ∧ NewEmFile readFile unmarshal homeDir [b] pe2 = none := by
  constructor
  · rfl
  · simp only [NewEmFile]
    rw [if_neg (by simp)]
    rw [if_neg (by simp [hb])]
    rw [if_pos (by simp)]

/-- Witness for C10 at the one-byte path "~" (byte 126). -/
theorem C10_witness :
    ((126 : Nat) ≠ 47)
    ∧ NewEmFile (fun _ => Except.error "e") (fun _ => (zeroEmailUser, none)) [] [] true = none
    ∧ NewEmFile (fun _ => Except.error "e") (fun _ => (zeroEmailUser, none)) [] [126] false
        = none := by
  refine ⟨by decide, ?_, ?_⟩
  · exact (C10_newEmFile_short_path_panics (fun _ => Except.error "e")
      (fun _ => (zeroEmailUser, none)) [] true false 126 (by decide)).1
  · exact (C10_newEmFile_short_path_panics (fun _ => Except.error "e")
      (fun _ => (zeroEmailUser, none)) [] true false 126 (by decide)).2
/-- C4 counterexample.  The claim says `Attach` with `lineMaxLength = 0`
does not crash because the division by the line width is guarded against
zero.  There is no such guard: `nbrLines := len(encoded) / this.lineMaxLength`
(src/em.go line 217) is a Go integer division, which panics at runtime on a
zero divisor.  Concretely, attaching a two-byte file to a builder whose
maximum line length was set to 0 panics (`none`). -/
theorem C4_counterexample :
    Attach (SetMaxLineLength (NewEm testCfg) 0) "a.txt" (some [104, 105]) = none := rfl

/-- C4 (corrected, amended claim).  For every file content, `Attach` with
`lineMaxLength` greater than the length of the base64-encoded content does
not crash (the wrapping loop body never runs and the whole encoding is
emitted as the final remainder); but with `lineMaxLength = 0` the unguarded
division `len(encoded) / lineMaxLength` panics for every file content. -/
theorem C4_attach_boundary_widths (s : EMState) (fn : String) (fc : Option (List Nat)) :
    (s.lineMaxLength = 0 → Attach s fn fc = none)
    ∧ (Int.ofNat (b64Encode (fc.getD [])).length < s.lineMaxLength →
        ∃ s', Attach s fn fc = some s') := by
  constructor
  · intro h0
    apply Attach_none
    unfold wrapEncoded
    rw [if_pos h0]
  · intro hlt
    have hne : s.lineMaxLength ≠ 0 := by
      intro h
      rw [h] at hlt
      exact absurd hlt (not_lt.mpr (Int.ofNat_nonneg _))
    obtain ⟨w, hw⟩ := wrapEncoded_isSome (b64Encode (fc.getD [])) s.lineMaxLength hne
    exact ⟨_, Attach_eq s fn fc w hw⟩

/-- Witness for C4: the zero width panics on a concrete builder, and a width
above the encoded length (500 > 4) succeeds on a concrete builder. -/
theorem C4_witness :
    ((SetMaxLineLength (NewEm testCfg) 0).lineMaxLength = 0
      ∧ Attach (SetMaxLineLength (NewEm testCfg) 0) "a.txt" (some [104, 105]) = none)
    ∧ (Int.ofNat (b64Encode ((some [104, 105] : Option (List Nat)).getD [])).length
          < (NewEm testCfg).lineMaxLength
        ∧ ∃ s', Attach (NewEm testCfg) "a.txt" (some [104, 105]) = some s') := by
  constructor
  · exact ⟨rfl, (C4_attach_boundary_widths (SetMaxLineLength (NewEm testCfg) 0)
      "a.txt" (some [104, 105])).1 rfl⟩
  · exact ⟨by decide, (C4_attach_boundary_widths (NewEm testCfg)
      "a.txt" (some [104, 105])).2 (by decide)⟩

/-- C6 counterexample.  The claim says an extension missing from the
content-type lookup table makes `Attach` set the Content-Type header to
application/octet-stream rather than an empty string.  Attaching
"report.zzz" (unknown extension ".zzz") to a fresh builder produces an
attachment part whose Content-Type header is the empty string — and the
empty string is not "application/octet-stream". -/
theorem C6_counterexample :
    (Attach (NewEm testCfg) "report.zzz" (some [104, 105])).map EMState.mixedChildren
      = some [MixedChild.altRef,
          MixedChild.leaf (Part.simple
            [("Content-Type", ""),
             ("Content-Transfer-Encoding", "base64"),
             ("Content-Disposition", "attachment; filename=\"report.zzz\"")]
            "aGk=")]
    ∧ ("" : String) ≠ "application/octet-stream" :=
  ⟨rfl, by decide⟩

/-- C6 (corrected, amended claim).  For every file path whose extension has
no entry in the content-type table, `Attach` appends an attachment part
whose Content-Type header is the empty string — `mime.TypeByExtension`
returns "" for an unknown extension and src/em.go line 206 uses its result
with no application/octet-stream fallback. -/
theorem C6_unknown_extension_empty_type (s : EMState) (fn : String) (fc : Option (List Nat))
    (hunknown : List.lookup (filepathExt fn) mimeTable = none)
    (hlml : s.lineMaxLength ≠ 0) :
    ∃ w, Attach s fn fc
        = some { doAltSetup s with
            mixedChildren := (doAltSetup s).mixedChildren ++
              [MixedChild.leaf (Part.simple (attachHeaders fn) (String.mk w))] }
      ∧ (attachHeaders fn).head? = some ("Content-Type", "") := by
  obtain ⟨w, hw⟩ := wrapEncoded_isSome (b64Encode (fc.getD [])) s.lineMaxLength hlml
  refine ⟨w, Attach_eq s fn fc w hw, ?_⟩
  simp [attachHeaders, typeByExtension, hunknown]

/-- Witness for C6 at the unknown extension ".zzz" and a fresh builder. -/
theorem C6_witness :
    List.lookup (filepathExt "report.zzz") mimeTable = none
    ∧ (NewEm testCfg).lineMaxLength ≠ 0
    ∧ ∃ w, Attach (NewEm testCfg) "report.zzz" (some [104, 105])
        = some { doAltSetup (NewEm testCfg) with
            mixedChildren := (doAltSetup (NewEm testCfg)).mixedChildren ++
              [MixedChild.leaf (Part.simple (attachHeaders "report.zzz") (String.mk w))] }
      ∧ (attachHeaders "report.zzz").head? = some ("Content-Type", "") :=
  ⟨rfl, by decide,
    C6_unknown_extension_empty_type (NewEm testCfg) "report.zzz" (some [104, 105])
      rfl (by decide)⟩

/-- C7 (confirmed).  For every unreadable or missing file path (the file
system answers `none`, so `content, _ := ioutil.ReadFile(fn)` at
src/em.go line 214 leaves `content` empty and discards the error), `Attach`
neither returns nor records an error: the stored `Err` field is unchanged
and an attachment part is silently appended whose content is the wrapped
base64 encoding of the empty byte string — which is the empty string. -/
theorem C7_unreadable_file_silently_attached (s : EMState) (fn : String)
    (hlml : s.lineMaxLength ≠ 0) :
    Attach s fn none
        = some { doAltSetup s with
            mixedChildren := (doAltSetup s).mixedChildren ++
              [MixedChild.leaf (Part.simple (attachHeaders fn) (String.mk (b64Encode [])))] }
    ∧ (Attach s fn none).map EMState.emErr = some s.emErr
    ∧ b64Encode [] = [] := by
  have hw : wrapEncoded (b64Encode ((none : Option (List Nat)).getD [])) s.lineMaxLength
      = some [] := wrapEncoded_nil s.lineMaxLength hlml
  have heq := Attach_eq s fn none [] hw
  refine ⟨heq, ?_, rfl⟩
  rw [heq]
  simp [doAltSetup_emErr]

/-- Witness for C7: attaching the unreadable path "gone.pdf" to a fresh
builder. -/
theorem C7_witness :
    (NewEm testCfg).lineMaxLength ≠ 0
    ∧ Attach (NewEm testCfg) "gone.pdf" none
        = some { doAltSetup (NewEm testCfg) with
            mixedChildren := (doAltSetup (NewEm testCfg)).mixedChildren ++
              [MixedChild.leaf
                (Part.simple (attachHeaders "gone.pdf") (String.mk (b64Encode [])))] }
    ∧ (Attach (NewEm testCfg) "gone.pdf" none).map EMState.emErr
        = some (NewEm testCfg).emErr :=
  ⟨by decide,
    (C7_unreadable_file_silently_attached (NewEm testCfg) "gone.pdf" (by decide)).1,
    (C7_unreadable_file_silently_attached (NewEm testCfg) "gone.pdf" (by decide)).2.1⟩
/- ------------------------------------------------------------------ -/
/- Arithmetic of the wrapping loop                                     -/
/- ------------------------------------------------------------------ -/

theorem intOfNat_mul (m n : Nat) : Int.ofNat m * Int.ofNat n = Int.ofNat (m * n) := rfl

theorem intToNat_ofNat (n : Nat) : (Int.ofNat n).toNat = n := rfl

theorem intTdiv_ofNat (m n : Nat) :
    Int.tdiv (Int.ofNat m) (Int.ofNat n) = Int.ofNat (m / n) := rfl

theorem foldl_concat (g : Nat → List Char) :
    ∀ (l : List Nat) (init : List Char),
      l.foldl (fun acc i => acc ++ g i ++ ['\n']) init
        = init ++ (l.map (fun i => g i ++ ['\n'])).flatten := by
  intro l
  induction l with
  | nil => intro init; simp
  | cons a t ih =>
      intro init
      simp only [List.foldl_cons, List.map_cons, List.flatten_cons]
      rw [ih]
      simp [List.append_assoc]

theorem goSliceTo_chunk (L : List Char) (k i : Nat) :
    goSliceTo L (Int.ofNat i * Int.ofNat k) ((Int.ofNat i + 1) * Int.ofNat k)
      = (L.drop (i * k)).take k := by
  unfold goSliceTo
  have h2 : (Int.ofNat i + 1) * Int.ofNat k - Int.ofNat i * Int.ofNat k = Int.ofNat k := by
    ring
  rw [h2, intOfNat_mul, intToNat_ofNat, intToNat_ofNat]

/-- Characterization of the wrapping loop at a positive width: the output is
the sequence of width-`lml` chunks of the input, each followed by a newline,
then the remainder with no trailing newline. -/
theorem wrapEncoded_pos (L : List Char) (lml : Int) (h : 0 < lml) :
    wrapEncoded L lml
      = some (((List.range (L.length / lml.toNat)).map
            (fun i => (L.drop (i * lml.toNat)).take lml.toNat ++ ['\n'])).flatten
          ++ L.drop (L.length / lml.toNat * lml.toNat)) := by
  set k := lml.toNat with hkdef
  have hk : lml = Int.ofNat k := (Int.toNat_of_nonneg h.le).symm
  have hne : lml ≠ 0 := by omega
  simp only [wrapEncoded, if_neg hne, goSliceFrom]
  rw [hk, intTdiv_ofNat, intToNat_ofNat]
  rw [foldl_concat
    (fun i => goSliceTo L (Int.ofNat i * Int.ofNat k) ((Int.ofNat i + 1) * Int.ofNat k))]
  have hfun :
      (fun i => goSliceTo L (Int.ofNat i * Int.ofNat k) ((Int.ofNat i + 1) * Int.ofNat k)
          ++ ['\n'])
        = (fun i => (L.drop (i * k)).take k ++ ['\n']) := by
    funext i
    rw [goSliceTo_chunk]
  rw [hfun, intOfNat_mul, intToNat_ofNat]
  simp

theorem chunk_length (L : List Char) (k i : Nat) (hik : i < L.length / k) :
    ((L.drop (i * k)).take k).length = k := by
  have h1 : (i + 1) * k ≤ L.length / k * k :=
    Nat.mul_le_mul_right k (Nat.succ_le_of_lt hik)
  have h2 : L.length / k * k ≤ L.length := Nat.div_mul_le_self _ _
  have h3 : i * k + k ≤ L.length := by
    have h4 : (i + 1) * k = i * k + k := by ring
    omega
  simp [List.length_take, List.length_drop]
  omega

theorem remainder_length (L : List Char) (k : Nat) :
    (L.drop (L.length / k * k)).length = L.length % k := by
  have h := Nat.div_add_mod L.length k
  rw [Nat.mul_comm] at h
  simp only [List.length_drop]
  exact Nat.sub_eq_of_eq_add (h.symm.trans (Nat.add_comm _ _))

theorem chunks_reassemble (L : List Char) (k : Nat) :
    ∀ n : Nat,
      ((List.range n).map (fun i => (L.drop (i * k)).take k)).flatten ++ L.drop (n * k)
        = L := by
  intro n
  induction n with
  | zero => simp
  | succ n ih =>
      rw [List.range_succ, List.map_append, List.flatten_append]
      simp only [List.map_cons, List.map_nil, List.flatten_cons, List.flatten_nil,
        List.append_nil]
      rw [List.append_assoc]
      have hd : (L.drop (n * k)).drop k = L.drop ((n + 1) * k) := by
        rw [List.drop_drop]
        congr 1
        ring
      rw [← hd, List.take_append_drop]
      exact ih

/-- C5 (confirmed).  For every file content and positive `lineMaxLength`,
`Attach` does not panic: it appends a part whose content is the wrap of the
base64 encoding of the full content (first two conjuncts); the wrapped
output is exactly the sequence of `lineMaxLength`-character chunks of the
encoding, each terminated by a newline, followed by the final partial
remainder with no trailing newline (third conjunct); every chunk has exactly
`lineMaxLength` characters (fourth conjunct); the remainder is the leftover
of length `len mod lineMaxLength` (fifth conjunct); and the chunks plus the
remainder reassemble the encoding exactly — the full content is encoded,
nothing dropped or duplicated (sixth conjunct).  Determinism is immediate:
the embedded encoder is a pure function of the file content and the width,
so equal inputs give byte-identical output. -/
theorem C5_attach_wraps_base64 (s : EMState) (fn : String) (content : List Nat)
    (h : 0 < s.lineMaxLength) :
    ∃ out : List Char,
      wrapEncoded (b64Encode content) s.lineMaxLength = some out
      ∧ Attach s fn (some content)
          = some { doAltSetup s with
              mixedChildren := (doAltSetup s).mixedChildren ++
                [MixedChild.leaf (Part.simple (attachHeaders fn) (String.mk out))] }
      ∧ out = ((List.range ((b64Encode content).length / s.lineMaxLength.toNat)).map
            (fun i => ((b64Encode content).drop (i * s.lineMaxLength.toNat)).take
                s.lineMaxLength.toNat ++ ['\n'])).flatten
          ++ (b64Encode content).drop
              ((b64Encode content).length / s.lineMaxLength.toNat * s.lineMaxLength.toNat)
      ∧ (∀ i, i < (b64Encode content).length / s.lineMaxLength.toNat →
          (((b64Encode content).drop (i * s.lineMaxLength.toNat)).take
              s.lineMaxLength.toNat).length = s.lineMaxLength.toNat)
      ∧ ((b64Encode content).drop
            ((b64Encode content).length / s.lineMaxLength.toNat
              * s.lineMaxLength.toNat)).length
          = (b64Encode content).length % s.lineMaxLength.toNat
      ∧ ((List.range ((b64Encode content).length / s.lineMaxLength.toNat)).map
            (fun i => ((b64Encode content).drop (i * s.lineMaxLength.toNat)).take
                s.lineMaxLength.toNat)).flatten
          ++ (b64Encode content).drop
              ((b64Encode content).length / s.lineMaxLength.toNat * s.lineMaxLength.toNat)
          = b64Encode content := by
  have hwp := wrapEncoded_pos (b64Encode content) s.lineMaxLength h
  refine ⟨_, hwp, Attach_eq s fn (some content) _ hwp, rfl, ?_, ?_, ?_⟩
  · intro i hi
    exact chunk_length _ _ _ hi
  · exact remainder_length _ _
  · exact chunks_reassemble _ _ _

/-- Witness for C5: the three-byte file content 1,2,3 encoded at the default
width 500 of a fresh builder. -/
theorem C5_witness :
    0 < (NewEm testCfg).lineMaxLength
    ∧ ∃ out : List Char,
        wrapEncoded (b64Encode [1, 2, 3]) (NewEm testCfg).lineMaxLength = some out
        ∧ Attach (NewEm testCfg) "f.bin" (some [1, 2, 3])
            = some { doAltSetup (NewEm testCfg) with
                mixedChildren := (doAltSetup (NewEm testCfg)).mixedChildren ++
                  [MixedChild.leaf (Part.simple (attachHeaders "f.bin") (String.mk out))] }
        ∧ out = ((List.range
              ((b64Encode [1, 2, 3]).length / (NewEm testCfg).lineMaxLength.toNat)).map
              (fun i => ((b64Encode [1, 2, 3]).drop
                  (i * (NewEm testCfg).lineMaxLength.toNat)).take
                  (NewEm testCfg).lineMaxLength.toNat ++ ['\n'])).flatten
            ++ (b64Encode [1, 2, 3]).drop
                ((b64Encode [1, 2, 3]).length / (NewEm testCfg).lineMaxLength.toNat
                  * (NewEm testCfg).lineMaxLength.toNat)
        ∧ (∀ i, i < (b64Encode [1, 2, 3]).length / (NewEm testCfg).lineMaxLength.toNat →
            (((b64Encode [1, 2, 3]).drop (i * (NewEm testCfg).lineMaxLength.toNat)).take
                (NewEm testCfg).lineMaxLength.toNat).length
              = (NewEm testCfg).lineMaxLength.toNat)
        ∧ ((b64Encode [1, 2, 3]).drop
              ((b64Encode [1, 2, 3]).length / (NewEm testCfg).lineMaxLength.toNat
                * (NewEm testCfg).lineMaxLength.toNat)).length
            = (b64Encode [1, 2, 3]).length % (NewEm testCfg).lineMaxLength.toNat
        ∧ ((List.range
              ((b64Encode [1, 2, 3]).length / (NewEm testCfg).lineMaxLength.toNat)).map
              (fun i => ((b64Encode [1, 2, 3]).drop
                  (i * (NewEm testCfg).lineMaxLength.toNat)).take
                  (NewEm testCfg).lineMaxLength.toNat)).flatten
            ++ (b64Encode [1, 2, 3]).drop
                ((b64Encode [1, 2, 3]).length / (NewEm testCfg).lineMaxLength.toNat
                  * (NewEm testCfg).lineMaxLength.toNat)
            = b64Encode [1, 2, 3] :=
  ⟨by decide, C5_attach_wraps_base64 (NewEm testCfg) "f.bin" [1, 2, 3] (by decide)⟩
/- ------------------------------------------------------------------ -/
/- Body-tree shape                                                     -/
/- ------------------------------------------------------------------ -/

theorem resolve_map_leaf (a : Part) (L : List Part) :
    L.map (resolveChild a ∘ MixedChild.leaf) = L := by
  induction L with
  | nil => rfl
  | cons p t ih => simp only [List.map_cons, Function.comp_apply, resolveChild, ih]

theorem TextBody_eq (s : EMState) (t : String) :
    TextBody s t
      = { doAltSetup s with
          altChildren := (doAltSetup s).altChildren ++ [Part.simple textHeaders t] } := rfl

theorem HtmlBody_eq (s : EMState) (t : String) :
    HtmlBody s t
      = { doAltSetup s with
          altChildren := (doAltSetup s).altChildren ++ [Part.simple htmlHeaders t] } := rfl

/-- Every body operation begins with `doAltSetup`, so applying it to a state
and to that state's setup form is the same. -/
theorem applyBodyOp_doAltSetup (s : EMState) (op : BodyOp) :
    applyBodyOp s op = applyBodyOp (doAltSetup s) op := by
  have hid : doAltSetup (doAltSetup s) = doAltSetup s :=
    doAltSetup_of_setup _ (doAltSetup_altSetup s)
  cases op with
  | text t => simp [applyBodyOp, TextBody_eq, hid]
  | html t => simp [applyBodyOp, HtmlBody_eq, hid]
  | attach fn fc => simp [applyBodyOp, Attach, hid]

theorem runBodyOps_cons_doAltSetup (s : EMState) (op : BodyOp) (rest : List BodyOp) :
    runBodyOps s (op :: rest) = runBodyOps (doAltSetup s) (op :: rest) := by
  simp only [runBodyOps]
  rw [applyBodyOp_doAltSetup]

/-- Invariant of the body operations once the containers exist: the Alt
container accumulates the text/HTML leaves and the Mixed container the
attachment leaves, each in call order, and the wrap width is untouched. -/
theorem runBodyOps_setup :
    ∀ (ops : List BodyOp) (s s' : EMState), s.altSetup = true →
      runBodyOps s ops = some s' →
      s'.altSetup = true
      ∧ s'.altChildren = s.altChildren ++ altLeaves ops
      ∧ s'.mixedChildren
          = s.mixedChildren ++ (attachLeaves s.lineMaxLength ops).map MixedChild.leaf
      ∧ s'.lineMaxLength = s.lineMaxLength := by
  intro ops
  induction ops with
  | nil =>
      intro s s' hAlt hrun
      have hs : s = s' := by simpa [runBodyOps] using hrun
      subst hs
      simp [altLeaves, attachLeaves, hAlt]
  | cons op rest ih =>
      intro s s' hAlt hrun
      have hds : doAltSetup s = s := doAltSetup_of_setup s hAlt
      cases op with
      | text t =>
          have hstep : runBodyOps s (BodyOp.text t :: rest)
              = runBodyOps (TextBody s t) rest := rfl
          rw [hstep] at hrun
          have h1 := ih (TextBody s t) s'
            (by rw [TextBody_eq, hds]; exact hAlt) hrun
          rw [TextBody_eq, hds] at h1
          obtain ⟨ha, hb, hc, hd⟩ := h1
          refine ⟨ha, ?_, ?_, hd⟩
          · rw [hb]
            simp [altLeaves, List.append_assoc]
          · rw [hc]
            simp [attachLeaves]
      | html t =>
          have hstep : runBodyOps s (BodyOp.html t :: rest)
              = runBodyOps (HtmlBody s t) rest := rfl
          rw [hstep] at hrun
          have h1 := ih (HtmlBody s t) s'
            (by rw [HtmlBody_eq, hds]; exact hAlt) hrun
          rw [HtmlBody_eq, hds] at h1
          obtain ⟨ha, hb, hc, hd⟩ := h1
          refine ⟨ha, ?_, ?_, hd⟩
          · rw [hb]
            simp [altLeaves, List.append_assoc]
          · rw [hc]
            simp [attachLeaves]
      | attach fn fc =>
          rcases hw : wrapEncoded (b64Encode (fc.getD [])) s.lineMaxLength with _ | w
          · have hnone : runBodyOps s (BodyOp.attach fn fc :: rest) = none := by
              simp [runBodyOps, applyBodyOp, Attach_none s fn fc hw]
            rw [hnone] at hrun
            cases hrun
          · have hAt := Attach_eq s fn fc w hw
            rw [hds] at hAt
            have hstep : runBodyOps s (BodyOp.attach fn fc :: rest)
                = runBodyOps
                    { s with mixedChildren := s.mixedChildren ++
                        [MixedChild.leaf (Part.simple (attachHeaders fn) (String.mk w))] }
                    rest := by
              simp only [runBodyOps, applyBodyOp, hAt]
            rw [hstep] at hrun
            have h1 := ih
              { s with mixedChildren := s.mixedChildren ++
                  [MixedChild.leaf (Part.simple (attachHeaders fn) (String.mk w))] }
              s' hAlt hrun
            obtain ⟨ha, hb, hc, hd⟩ := h1
            refine ⟨ha, ?_, ?_, hd⟩
            · rw [hb]
              simp [altLeaves]
            · rw [hc]
              simp [attachLeaves, hw, List.append_assoc]

/-- C8 (confirmed).  For every nonempty sequence of `TextBody`, `HtmlBody`
and `Attach` calls applied to a builder whose containers do not yet exist
(one message lifecycle from construction), the resulting body tree is a
`multipart/mixed` root whose first child is the `multipart/alternative`
container holding exactly the text/HTML leaves in call order, with the
attachment leaves as its siblings under mixed in call order; the containers
come into existence on the first of those calls (the final state has
`altSetup = true`) and are created exactly once — on every state whose
containers already exist, `doAltSetup` is the identity, so no later call
recreates them. -/
theorem C8_body_tree_shape (s0 : EMState) (ops : List BodyOp) (s' : EMState)
    (h0 : s0.altSetup = false) (hne : ops ≠ [])
    (hrun : runBodyOps s0 ops = some s') :
    s'.altSetup = true
    ∧ mixedTree s'
        = Part.multi "multipart/mixed"
            (Part.multi "multipart/alternative" (altLeaves ops)
              :: attachLeaves s0.lineMaxLength ops)
    ∧ (∀ t : EMState, t.altSetup = true → doAltSetup t = t) := by
  cases ops with
  | nil => exact absurd rfl hne
  | cons op rest =>
      rw [runBodyOps_cons_doAltSetup, doAltSetup_of_not_setup s0 h0] at hrun
      have h1 := runBodyOps_setup (op :: rest)
        { s0 with altSetup := true, altChildren := [], mixedChildren := [MixedChild.altRef] }
        s' rfl hrun
      obtain ⟨ha, hb, hc, hd⟩ := h1
      refine ⟨ha, ?_, fun t ht => doAltSetup_of_setup t ht⟩
      unfold mixedTree altPart
      rw [hc, hb]
      simp [resolveChild, resolve_map_leaf]

/-- Witness for C8: the single-operation sequence `TextBody "a"` on a fresh
builder. -/
theorem C8_witness :
    (NewEm testCfg).altSetup = false
    ∧ ([BodyOp.text "a"] : List BodyOp) ≠ []
    ∧ runBodyOps (NewEm testCfg) [BodyOp.text "a"] = some (TextBody (NewEm testCfg) "a")
    ∧ mixedTree (TextBody (NewEm testCfg) "a")
        = Part.multi "multipart/mixed"
            (Part.multi "multipart/alternative" (altLeaves [BodyOp.text "a"])
              :: attachLeaves (NewEm testCfg).lineMaxLength [BodyOp.text "a"]) := by
  refine ⟨rfl, by simp, rfl, ?_⟩
  exact (C8_body_tree_shape (NewEm testCfg) [BodyOp.text "a"]
    (TextBody (NewEm testCfg) "a") rfl (by simp) rfl).2.1
end Em
